import Mathlib

/-!
Verification of the gateway request-routing and access-control layer of the
microservice repository.  The definitions below are shallow embeddings of the
TypeScript source: JWT verification is abstracted as an oracle from token
strings to optional payloads (mirroring the fact that `jwt.verify` either
returns a decoded payload or throws), Express middleware is modelled as a
function from a request to either a `next` continuation carrying the possibly
mutated request or an immediate JSON response, and the JavaScript
`String.prototype.split(" ")` is embedded character by character.
-/

namespace Micro

/-- Payload of a verified access token (interface `IJWTPayload` in
`src/types`): `id`, `email`, `role` and `userType`, where `userType` is
`"customer"` or `"staff"`.  `firstName`/`lastName` are never inspected by the
gateway middlewares and are omitted. -/
structure JWTPayload where
  id : String
  email : String
  role : String
  userType : String
deriving DecidableEq, Repr

/-- JWT verification oracle: `jwt.verify(token, secret)` either returns the
decoded payload or throws (signature mismatch or expiry); with the secret and
clock fixed this is a function from the token string to `Option JWTPayload`. -/
def Verifier : Type := String → Option JWTPayload

/-- An inbound HTTP request as seen by the gateway middlewares: method, path,
optional `Authorization` header, and the mutable `req.user` field (unset on
arrival unless an earlier middleware attached a payload). -/
structure Request where
  method : String
  path : String
  authorization : Option String
  user : Option JWTPayload
deriving DecidableEq, Repr

/-- Result of running one Express middleware: either `next` was called (with
the possibly mutated request) or a JSON response with a status code and a
`message` field was sent (every denial body in the source has the shape
`success: false` plus a message, so the status and message determine it). -/
inductive MwResult where
  | next (req : Request)
  | respond (status : Nat) (message : String)
deriving DecidableEq, Repr

/-- Sequencing of middlewares: a response short-circuits, `next` passes the
mutated request on. -/
def andThen (r : MwResult) (m : Request → MwResult) : MwResult :=
  match r with
  | .next req => m req
  | .respond s b => .respond s b

/-- Observable outcome of a middleware decision: either the request proceeds
(with whatever principal is attached) or it is denied with a status and
message.  Used to compare decisions for requests that differ only in fields a
middleware does not inspect. -/
inductive Outcome where
  | allowed (user : Option JWTPayload)
  | denied (status : Nat) (message : String)
deriving DecidableEq, Repr

/-- Project a middleware result to its observable outcome. -/
def outcomeOf : MwResult → Outcome
  | .next req => .allowed req.user
  | .respond s m => .denied s m

/-- Character-level splitter matching JavaScript `s.split(" ")`: splits on
every single space, keeping empty segments, and yields `[[]]` on the empty
string (JS: `"".split(" ") = [""]`). -/
def splitSpaces : List Char → List (List Char)
  | [] => [[]]
  | c :: rest =>
    match splitSpaces rest with
    | [] => if c = ' ' then [[], []] else [[c]]
    | g :: gs => if c = ' ' then [] :: g :: gs else (c :: g) :: gs

/-- JavaScript `s.split(" ")` on Lean strings. -/
def jsSplitSpace (s : String) : List String :=
  (splitSpaces s.toList).map (fun cs => String.mk cs)

/-- Token extraction used uniformly by the middlewares:
`const token = authHeader && authHeader.split(" ")[1]`.  The token is missing
when the header is absent, the header is the empty string (falsy), index 1
does not exist (header without a space), or segment 1 is the empty string
(falsy). -/
def extractToken : Option String → Option String
  | none => none
  | some h =>
    if h = "" then none
    else
      match (jsSplitSpace h).get? 1 with
      | none => none
      | some t => if t = "" then none else some t

/-- Middleware `authenticateToken` (gateway `authMiddleware` file): missing
token gives 401 "Access token is required"; a token that fails `jwt.verify`
gives 403 "Invalid or expired token"; otherwise `req.user` is set to the
decoded payload and `next()` runs. -/
def authenticateToken (verify : Verifier) (req : Request) : MwResult :=
  match extractToken req.authorization with
  | none => .respond 401 "Access token is required"
  | some token =>
    match verify token with
    | some decoded => .next { req with user := some decoded }
    | none => .respond 403 "Invalid or expired token"

/-- Middleware `requireAdminStaff`: denies 401 when `req.user` is unset and
403 "Admin staff access required" unless `userType` is `"staff"` and `role`
is `"admin"`. -/
def requireAdminStaff (req : Request) : MwResult :=
  match req.user with
  | none => .respond 401 "Authentication required"
  | some u =>
    if u.userType ≠ "staff" ∨ u.role ≠ "admin" then
      .respond 403 "Admin staff access required"
    else .next req

/-- Middleware `requireStaff`: denies 401 when `req.user` is unset and 403
"Staff access required" when `userType` is not `"staff"`; the `role` value is
not inspected. -/
def requireStaff (req : Request) : MwResult :=
  match req.user with
  | none => .respond 401 "Authentication required"
  | some u =>
    if u.userType ≠ "staff" then .respond 403 "Staff access required"
    else .next req

/-- JavaScript `path.startsWith(route)`, embedded on character lists. -/
def charsStartWith : List Char → List Char → Bool
  | [], _ => true
  | _ :: _, [] => false
  | c :: cs, d :: ds => c = d && charsStartWith cs ds

/-- String version of `startsWith` used by the route tables. -/
def pathStartsWith (path route : String) : Bool :=
  charsStartWith route.toList path.toList

/-- Public auth routes of `gatewayAuthMiddleware`
(`src/gateway/middleware/gatewayAuth.ts`). -/
def publicAuthRoutes : List String :=
  ["/api/auth/register", "/api/auth/login", "/api/auth/forgot-password"]

/-- Admin-only user routes of `gatewayUserMiddleware`
(`src/gateway/middleware/gatewayAuth.ts`). -/
def adminUserRoutes : List String :=
  ["/api/users/staff", "/api/users/all"]

/-- Gateway middleware for auth routes (`gatewayAuthMiddleware`): public auth
routes pass through; every other path requires a token verified against the
secret. -/
def gatewayAuthMiddleware (verify : Verifier) (req : Request) : MwResult :=
  if publicAuthRoutes.any (fun route => pathStartsWith req.path route) then
    .next req
  else
    match extractToken req.authorization with
    | none => .respond 401 "Access token is required"
    | some token =>
      match verify token with
      | some decoded => .next { req with user := some decoded }
      | none => .respond 403 "Invalid or expired token"

/-- Gateway middleware for user routes (`gatewayUserMiddleware`): on an
admin-classified path it first tests `req.user` (401 when unset, 403 "Admin
staff access required" unless staff admin) and only afterwards falls through
to the token check shared with all other user routes. -/
def gatewayUserMiddleware (verify : Verifier) (req : Request) : MwResult :=
  if adminUserRoutes.any (fun route => pathStartsWith req.path route) then
    match req.user with
    | none => .respond 401 "Authentication required"
    | some u =>
      if u.userType ≠ "staff" ∨ u.role ≠ "admin" then
        .respond 403 "Admin staff access required"
      else authenticateToken verify req
  else authenticateToken verify req

/-- Route table `PUBLIC_ROUTES` of
`src/gateway/middleware/routeProtection.ts`. -/
def PUBLIC_ROUTES : List String :=
  ["/api/auth/register", "/api/auth/login", "/api/auth/forgot-password",
   "/api", "/api-docs", "/unified-api"]

/-- Route table `ADMIN_ROUTES` of `routeProtection.ts`. -/
def ADMIN_ROUTES : List String :=
  ["/api/users/staff", "/api/users/all"]

/-- Route table `STAFF_ROUTES` of `routeProtection.ts`. -/
def STAFF_ROUTES : List String :=
  ["/api/auth/staff"]

/-- Policy classes the route tables encode. -/
inductive RouteClass where
  | publicRoute
  | admin
  | staff
  | authenticated
deriving DecidableEq, Repr

/-- Classification implicit in the dispatch order of `protectRoutes`: public
table first (matched by `startsWith`), then admin, then staff, then the
authenticated default. -/
def classifyRoute (path : String) : RouteClass :=
  if PUBLIC_ROUTES.any (fun route => pathStartsWith path route) then .publicRoute
  else if ADMIN_ROUTES.any (fun route => pathStartsWith path route) then .admin
  else if STAFF_ROUTES.any (fun route => pathStartsWith path route) then .staff
  else .authenticated

/-- Middleware `protectRoutes` (`routeProtection.ts`): dispatches on the route
tables in the order public, admin, staff, authenticated.  The admin and staff
branches invoke `requireAdminStaff` / `requireStaff` directly, without running
`authenticateToken` first. -/
def protectRoutes (verify : Verifier) (req : Request) : MwResult :=
  if PUBLIC_ROUTES.any (fun route => pathStartsWith req.path route) then
    .next req
  else if ADMIN_ROUTES.any (fun route => pathStartsWith req.path route) then
    requireAdminStaff req
  else if STAFF_ROUTES.any (fun route => pathStartsWith req.path route) then
    requireStaff req
  else
    authenticateToken verify req

/-- A JSON scalar appearing in a gateway response body. -/
inductive BodyVal where
  | str (s : String)
  | bool (b : Bool)
deriving DecidableEq, Repr

/-- Static registry entry of the primary gateway (`src/gateway/server.ts`):
base URL, timeout, retry budget and the mounted route list. -/
structure ServiceConfig where
  url : String
  timeout : Nat
  retries : Nat
  routes : List String
deriving DecidableEq, Repr

/-- The service registry literal of the primary gateway, in declaration
order. -/
def services : List (String × ServiceConfig) :=
  [("auth-service",
    { url := "http://localhost:12004", timeout := 5000, retries := 3,
      routes := ["/api/auth"] }),
   ("user-service",
    { url := "http://localhost:12001", timeout := 5000, retries := 3,
      routes := ["/api/users", "/api/users/staff", "/api/users/all"] }),
   ("product-service",
    { url := "http://localhost:12002", timeout := 5000, retries := 3,
      routes := ["/api/products", "/api/categories"] }),
   ("order-service",
    { url := "http://localhost:12003", timeout := 5000, retries := 3,
      routes := ["/api/orders", "/api/payments"] })]

/-- Express mount matching for `app.use(route, ...)`: the path starts with
the mount route and the next character, if any, is a slash. -/
def mountMatches (path route : String) : Bool :=
  pathStartsWith path route &&
  (path.toList.length = route.toList.length ||
   path.toList.get? route.toList.length = some '/')

/-- First registered service (registration order of the registry literal)
whose mount route matches the path, together with the matched route. -/
def findMount (path : String) : Option (String × String) :=
  services.findSome? (fun p =>
    (p.2.routes.find? (fun r => mountMatches path r)).map (fun r => (p.1, r)))

/-- Route lists of all registered services, as served by the 404 handler's
`availableRoutes` field. -/
def availableRoutes : List String :=
  (services.map (fun p => p.2.routes)).flatten

/-- Terminal dispatch result of the primary gateway pipeline. -/
inductive GatewayResponse where
  | health (status : Nat) (body : List (String × BodyVal))
  | proxied (serviceName : String) (mount : String)
  | apiInfo (status : Nat)
  | notFound (status : Nat) (err : String) (routesListed : List String)
deriving DecidableEq, Repr

/-- Top-level routing of the primary gateway (`src/gateway/server.ts`):
the `/health` handler is registered first, then one proxy per registry route,
then the `/api` info endpoint, then the 404 handler.  No authentication
middleware appears anywhere in this pipeline, so dispatch never reads the
`Authorization` header. -/
def gatewayDispatch (now : String) (req : Request) : GatewayResponse :=
  if req.method = "GET" && req.path = "/health" then
    .health 200
      [("status", .str "OK"), ("timestamp", .str now),
       ("service", .str "API Gateway"), ("version", .str "1.0.0")]
  else
    match findMount req.path with
    | some nr => .proxied nr.1 nr.2
    | none =>
      if req.method = "GET" && req.path = "/api" then .apiInfo 200
      else .notFound 404 "Not Found" availableRoutes

/-- Body of the primary gateway's proxy `onError` handler. -/
structure ProxyErrorBody where
  error : String
  service : String
  message : String
deriving DecidableEq, Repr

/-- The `onError` handler the primary gateway installs on every proxy: on any
proxy error it answers status 503 with the service name of the failing
registry entry. -/
def proxyOnError (serviceName : String) : Nat × ProxyErrorBody :=
  (503,
   { error := "Service temporarily unavailable", service := serviceName,
     message := "The requested service is currently unavailable" })

/-- Behaviour of an upstream backend, one answer per attempt index: `some`
is a relayed (status, body) response, `none` a connection failure or
timeout. -/
def Upstream : Type := Nat → Option (Nat × String)

/-- Outcome of one forwarded request. -/
inductive ForwardOutcome where
  | relayed (status : Nat) (body : String)
  | unavailable (status : Nat) (body : ProxyErrorBody)
deriving DecidableEq, Repr

/-- The primary gateway's forwarder: `createProxyMiddleware` issues exactly
one upstream request per inbound request, whatever the HTTP method, and the
`onError` handler answers 503 on failure.  The second component counts the
upstream attempts made. -/
def proxyForward (serviceName : String) (upstream : Upstream) :
    ForwardOutcome × Nat :=
  match upstream 0 with
  | some sb => (.relayed sb.1 sb.2, 1)
  | none => (.unavailable 503 (proxyOnError serviceName).2, 1)

/-- Modelled from the spec: the retry loop the specification asserts for the
forwarder — keep attempting while the upstream fails, up to the given number
of attempts, returning the first success and the count of attempts made.
This definition follows the spec's words and exists only to be compared with
`proxyForward`, which is the code's behaviour. -/
def specRetryAttempts (upstream : Upstream) (idx : Nat) :
    Nat → Option (Nat × String) × Nat
  | 0 => (none, 0)
  | n + 1 =>
    match upstream idx with
    | some r => (some r, 1)
    | none =>
      let p := specRetryAttempts upstream (idx + 1) n
      (p.1, p.2 + 1)

/-- Modelled from the spec: the forwarder behaviour the claim asserts — for
`GET` and `HEAD`, retry immediately up to `maxRetries` extra attempts; for
every other method make a single attempt. -/
def specForward (method : String) (maxRetries : Nat) (upstream : Upstream) :
    Option (Nat × String) × Nat :=
  if method = "GET" ∨ method = "HEAD" then
    specRetryAttempts upstream 0 (maxRetries + 1)
  else
    match upstream 0 with
    | some r => (some r, 1)
    | none => (none, 1)

/-- Outcome of the `axios` call made by the secondary gateway's manual
`/api/auth` proxy: an upstream response (any status), or a connection
failure / timeout in which `error.response` is absent. -/
inductive AxiosOutcome where
  | ok (status : Nat) (body : String)
  | httpError (status : Nat) (body : String)
  | connFailure
deriving DecidableEq, Repr

/-- The secondary gateway's manual `/api/auth` proxy handler
(`src/gateway/server.ts`, second variant): upstream responses are relayed
with their status; a connection failure is answered with status 500 and
message "Service unavailable". -/
def authProxyRelay : AxiosOutcome → Nat × String
  | .ok s b => (s, b)
  | .httpError s b => (s, b)
  | .connFailure => (500, "Service unavailable")

/-- Payload type of the shared JWT helper (`src/shared/jwt.ts`
`TokenPayload`). -/
structure TokenPayload where
  id : String
  email : String
  role : String
  isAdmin : Option Bool
deriving DecidableEq, Repr

/-- Verification oracle for `verifyAccessToken` of `src/shared/jwt.ts`. -/
def VerifyAccess : Type := String → Option TokenPayload

/-- The `req.user` value attached by the gateway `auth.ts` middlewares
(id, email and role copied from the decoded payload). -/
structure GUser where
  id : String
  email : String
  role : String
deriving DecidableEq, Repr

/-- Request type threaded through the gateway `auth.ts` middlewares
(`AuthenticatedRequest`). -/
structure AuthedRequest where
  method : String
  path : String
  authorization : Option String
  user : Option GUser
deriving DecidableEq, Repr

/-- Result of one gateway `auth.ts` middleware: `next`, or a JSON error
response with `error` and `message` fields. -/
inductive AuthMwResult where
  | next (req : AuthedRequest)
  | respond (status : Nat) (error : String) (message : String)
deriving DecidableEq, Repr

/-- Middleware `authenticateToken` of the gateway `auth.ts` variant: missing
token gives 401 ("Access denied" / "No token provided"), a failing token 403
("Invalid token" / "Token verification failed"), otherwise `req.user` is
populated and `next()` runs. -/
def authenticateTokenG (verify : VerifyAccess) (req : AuthedRequest) :
    AuthMwResult :=
  match extractToken req.authorization with
  | none => .respond 401 "Access denied" "No token provided"
  | some token =>
    match verify token with
    | some d => .next { req with user := some ⟨d.id, d.email, d.role⟩ }
    | none => .respond 403 "Invalid token" "Token verification failed"

/-- Middleware `optionalAuth` of the gateway `auth.ts` variant: when a token
is present and verifies, `req.user` is populated; when verification throws,
the `catch` block calls `next()` with `req.user` left unset; when no token is
present, `next()` runs directly.  Every branch calls `next()`. -/
def optionalAuth (verify : VerifyAccess) (req : AuthedRequest) : AuthMwResult :=
  match extractToken req.authorization with
  | none => .next req
  | some token =>
    match verify token with
    | some d => .next { req with user := some ⟨d.id, d.email, d.role⟩ }
    | none => .next req

/-- Terminal result of a gateway route pipeline: the request was handed to
the service proxy (with whatever principal was attached), or denied. -/
inductive PipelineResult where
  | forwarded (service : String) (user : Option GUser)
  | denied (status : Nat) (message : String)
deriving DecidableEq, Repr

/-- The `/users` route of the gateway router variant:
`router.use('/users', optionalAuth, createServiceProxy('user'))`. -/
def usersRoute (verify : VerifyAccess) (req : AuthedRequest) : PipelineResult :=
  match optionalAuth verify req with
  | .next r => .forwarded "user" r.user
  | .respond s _ m => .denied s m

/-- The staff-dashboard guard chain of the auth routes file:
`router.get("/api/auth/staff/dashboard", authenticateToken, requireStaff, h)`
— verification first, then the staff check. -/
def staffRouteGuard (verify : Verifier) (req : Request) : MwResult :=
  andThen (authenticateToken verify req) requireStaff

/-- The admin guard chain the user service mounts on `/api/users/staff` and
`/api/users/all`: `authenticateToken` then `requireAdminStaff`. -/
def adminRouteGuard (verify : Verifier) (req : Request) : MwResult :=
  andThen (authenticateToken verify req) requireAdminStaff

/-- A concrete verification oracle for witnesses and counterexamples: three
known tokens with fixed payloads, everything else fails. -/
def demoVerify : Verifier := fun t =>
  if t = "customer-token" then
    some { id := "u1", email := "c@example.com", role := "user",
           userType := "customer" }
  else if t = "staff-admin-token" then
    some { id := "s1", email := "a@example.com", role := "admin",
           userType := "staff" }
  else if t = "staff-cashier-token" then
    some { id := "s2", email := "b@example.com", role := "cashier",
           userType := "staff" }
  else none

/-- A concrete oracle for the shared-JWT middlewares: one valid token. -/
def demoVerifyAccess : VerifyAccess := fun t =>
  if t = "tok" then
    some { id := "u1", email := "c@example.com", role := "user",
           isAdmin := none }
  else none

/-- Characters strictly after the first space of a character list. -/
def dropThroughFirstSpace : List Char → List Char
  | [] => []
  | c :: cs => if c = ' ' then cs else dropThroughFirstSpace cs

/-- Modelled from the claim's words, for comparison with `extractToken`: the
substring of a header after its first space.  The code does not compute this;
it takes `split(" ")[1]`, the segment between the first two spaces. -/
def afterFirstSpace (hdr : String) : String :=
  String.mk (dropThroughFirstSpace hdr.toList)

/-- The splitter never returns an empty group list. -/
theorem splitSpaces_ne_nil (cs : List Char) : splitSpaces cs ≠ [] := by
  induction cs with
  | nil => simp [splitSpaces]
  | cons c rest ih =>
    simp only [splitSpaces]
    cases h : splitSpaces rest with
    | nil => exact absurd h ih
    | cons g gs =>
      by_cases hc : c = ' ' <;> simp [hc]

/-- A space-free character list splits into itself alone. -/
theorem splitSpaces_no_space (cs : List Char) (h : ' ' ∉ cs) :
    splitSpaces cs = [cs] := by
  induction cs with
  | nil => rfl
  | cons c rest ih =>
    have hc : ¬ c = ' ' := fun he => h (he ▸ List.mem_cons_self c rest)
    have hr : ' ' ∉ rest := fun hm => h (List.mem_cons_of_mem c hm)
    simp only [splitSpaces, ih hr]
    simp [hc]

/-- Splitting a list that starts with a space-free segment followed by a
space peels off that segment as the first group. -/
theorem splitSpaces_append_space (cs ds : List Char) (h : ' ' ∉ cs) :
    splitSpaces (cs ++ ' ' :: ds) = cs :: splitSpaces ds := by
  induction cs with
  | nil =>
    simp only [List.nil_append, splitSpaces]
    cases hd : splitSpaces ds with
    | nil => exact absurd hd (splitSpaces_ne_nil ds)
    | cons g gs => simp
  | cons c rest ih =>
    have hc : ¬ c = ' ' := fun he => h (he ▸ List.mem_cons_self c rest)
    have hr : ' ' ∉ rest := fun hm => h (List.mem_cons_of_mem c hm)
    simp only [List.cons_append, splitSpaces]
    rw [show splitSpaces (rest.append (' ' :: ds)) = rest :: splitSpaces ds from ih hr]
    simp [hc]

/-- String concatenation concatenates the character lists. -/
theorem string_toList_append (s t : String) :
    (s ++ t).toList = s.toList ++ t.toList := by
  cases s; cases t; rfl

/-- Rebuilding a string from its own characters is the identity. -/
theorem string_mk_toList (s : String) : String.mk s.toList = s := by
  cases s; rfl

/-- JS split of `scheme ++ " " ++ rest` peels off the space-free scheme. -/
theorem jsSplitSpace_scheme (s r : String) (hs : ' ' ∉ s.toList) :
    jsSplitSpace (s ++ " " ++ r) = s :: jsSplitSpace r := by
  unfold jsSplitSpace
  have hsp : (" " : String).toList = [' '] := by decide
  have ht : (s ++ " " ++ r).toList = s.toList ++ ' ' :: r.toList := by
    rw [string_toList_append, string_toList_append, hsp]
    simp
  rw [ht, splitSpaces_append_space _ _ hs]
  simp [string_mk_toList]

/-- JS split of a space-free string is that string alone. -/
theorem jsSplitSpace_no_space (hdr : String) (hh : ' ' ∉ hdr.toList) :
    jsSplitSpace hdr = [hdr] := by
  unfold jsSplitSpace
  rw [splitSpaces_no_space _ hh]
  simp [string_mk_toList]

/-- A header with no space yields no token. -/
theorem extractToken_no_space (hdr : String) (hh : ' ' ∉ hdr.toList) :
    extractToken (some hdr) = none := by
  unfold extractToken
  by_cases he : hdr = ""
  · simp [he]
  · simp [he, jsSplitSpace_no_space hdr hh]

/-- For a header of the form `scheme ++ " " ++ rest` with a space-free
scheme, the extracted token is the first JS-split segment of `rest` and does
not depend on the scheme. -/
theorem extractToken_scheme (s r : String) (hs : ' ' ∉ s.toList) :
    extractToken (some (s ++ " " ++ r)) =
      (match (jsSplitSpace r).get? 0 with
       | none => none
       | some t => if t = "" then none else some t) := by
  have hne : s ++ " " ++ r ≠ "" := by
    intro he
    have h0 : (s ++ " " ++ r).toList = ([] : List Char) := by
      rw [he]
      decide
    rw [string_toList_append, string_toList_append] at h0
    simp at h0
  simp only [extractToken]
  rw [if_neg hne, jsSplitSpace_scheme s r hs]
  rfl

/-- Unfolding of `authenticateToken` once a token has been extracted. -/
theorem authenticateToken_of_token (verify : Verifier) (req : Request)
    (token : String) (hex : extractToken req.authorization = some token) :
    authenticateToken verify req =
      (match verify token with
       | some decoded => .next { req with user := some decoded }
       | none => .respond 403 "Invalid or expired token") := by
  unfold authenticateToken
  rw [hex]

/-- On a non-public path, `gatewayAuthMiddleware` is the token check of
`authenticateToken`. -/
theorem gatewayAuthMiddleware_nonpublic (verify : Verifier) (req : Request)
    (hpub : publicAuthRoutes.any (fun route => pathStartsWith req.path route) = false) :
    gatewayAuthMiddleware verify req = authenticateToken verify req := by
  unfold gatewayAuthMiddleware authenticateToken
  rw [hpub]
  simp only [Bool.false_eq_true, if_false]

/-- With no extractable token, `optionalAuth` calls `next` unchanged. -/
theorem optionalAuth_of_none (verify : VerifyAccess) (req : AuthedRequest)
    (hex : extractToken req.authorization = none) :
    optionalAuth verify req = .next req := by
  unfold optionalAuth
  rw [hex]

/-- Unfolding of `optionalAuth` once a token has been extracted. -/
theorem optionalAuth_of_token (verify : VerifyAccess) (req : AuthedRequest)
    (token : String) (hex : extractToken req.authorization = some token) :
    optionalAuth verify req =
      (match verify token with
       | some d => .next { req with user := some ⟨d.id, d.email, d.role⟩ }
       | none => .next req) := by
  unfold optionalAuth
  rw [hex]

/-- C1: the claim says a valid customer-class token on an admin-classified
route is denied 403 "Admin staff access required" and never forwarded.  The
code does neither: `gatewayUserMiddleware` tests `req.user` before verifying
the token, so the admin branch answers 401 "Authentication required" for a
valid customer token and even for a valid staff-admin token (admin routes are
unreachable through it), while the `protectRoutes` variant classifies the
path public and forwards it untouched.  The user service's own chain
`authenticateToken` then `requireAdminStaff` produces exactly the claimed
403, witnessing the intent the gateway middleware misses. -/
theorem c1_admin_route_401_lockout :
    gatewayUserMiddleware demoVerify
      ⟨"GET", "/api/users/staff", some "Bearer customer-token", none⟩ =
      .respond 401 "Authentication required" ∧
    gatewayUserMiddleware demoVerify
      ⟨"GET", "/api/users/staff", some "Bearer staff-admin-token", none⟩ =
      .respond 401 "Authentication required" ∧
    protectRoutes demoVerify
      ⟨"GET", "/api/users/staff", some "Bearer customer-token", none⟩ =
      .next ⟨"GET", "/api/users/staff", some "Bearer customer-token", none⟩ ∧
    adminRouteGuard demoVerify
      ⟨"GET", "/api/users/staff", some "Bearer customer-token", none⟩ =
      .respond 403 "Admin staff access required" := by
  decide

/-- C2: the claim says the longer policy prefix (admin `/api/users/staff`)
takes precedence and no path defaults to public.  In the code the public
table is consulted first, it contains the prefix `/api`, and matching is
`startsWith`, so `/api/users/staff` — although listed in `ADMIN_ROUTES` — is
classified public and `protectRoutes` forwards it with no check at all. -/
theorem c2_api_public_shadows_admin :
    classifyRoute "/api/users/staff" = RouteClass.publicRoute ∧
    (ADMIN_ROUTES.any (fun route => pathStartsWith "/api/users/staff" route)) = true ∧
    (PUBLIC_ROUTES.any (fun route => pathStartsWith "/api/users/staff" route)) = true ∧
    pathStartsWith "/api/users/staff" "/api" = true ∧
    protectRoutes demoVerify ⟨"GET", "/api/users/staff", none, none⟩ =
      .next ⟨"GET", "/api/users/staff", none, none⟩ := by
  decide

/-- C3 counterexample: the claim says the 503 body for a down order service
is error "Service Unavailable" with service "order", and that no status other
than 503 reaches the client.  The registry entry owning `/api/orders` is
named "order-service", the `onError` body uses error "Service temporarily
unavailable" and that registry name, and the manual `/api/auth` proxy answers
500 on a connection failure. -/
theorem c3_counterexample :
    findMount "/api/orders" = some ("order-service", "/api/orders") ∧
    (proxyOnError "order-service").2.error = "Service temporarily unavailable" ∧
    (proxyOnError "order-service").2.error ≠ "Service Unavailable" ∧
    (proxyOnError "order-service").2.service ≠ "order" ∧
    authProxyRelay .connFailure = (500, "Service unavailable") ∧
    (500 : Nat) ≠ 503 := by
  decide

/-- C3 amended: when the upstream attempt fails, the primary gateway's proxy
answers a structured 503 whose body is error "Service temporarily
unavailable", the registry service name, and message "The requested service
is currently unavailable", in a single attempt; the secondary gateway's
manual `/api/auth` proxy instead answers 500 with message "Service
unavailable" on connection failure. -/
theorem c3_upstream_failure_shape (name : String) (upstream : Upstream)
    (hfail : upstream 0 = none) :
    proxyForward name upstream =
      (.unavailable 503
        { error := "Service temporarily unavailable", service := name,
          message := "The requested service is currently unavailable" }, 1) ∧
    authProxyRelay .connFailure = (500, "Service unavailable") := by
  unfold proxyForward
  rw [hfail]
  exact ⟨rfl, rfl⟩

/-- C3 witness: the amended statement at the order service with an upstream
that is down. -/
theorem c3_upstream_failure_shape_witness :
    proxyForward "order-service" (fun _ => none) =
      (.unavailable 503
        { error := "Service temporarily unavailable", service := "order-service",
          message := "The requested service is currently unavailable" }, 1) ∧
    authProxyRelay .connFailure = (500, "Service unavailable") :=
  c3_upstream_failure_shape "order-service" (fun _ => none) rfl

/-- C4 counterexample: the claim says `GET /api/users/staff` with no
`Authorization` header yields exactly 401 "Access token is required"; the
middleware that handles that path answers 401 with the different message
"Authentication required". -/
theorem c4_counterexample :
    gatewayUserMiddleware demoVerify ⟨"GET", "/api/users/staff", none, none⟩ =
      .respond 401 "Authentication required" ∧
    ("Authentication required" : String) ≠ "Access token is required" := by
  decide

/-- C4 amended: a request with no extractable bearer token reaching
`authenticateToken`, or the non-public branch of `gatewayAuthMiddleware`, is
denied 401 "Access token is required" and never reaches a continuation; but
an admin-classified user path with no principal attached is denied by
`gatewayUserMiddleware` with 401 "Authentication required" instead. -/
theorem c4_missing_token_denied (verify : Verifier) (req : Request)
    (hex : extractToken req.authorization = none) (hu : req.user = none) :
    authenticateToken verify req = .respond 401 "Access token is required" ∧
    (∀ k, andThen (authenticateToken verify req) k =
      .respond 401 "Access token is required") ∧
    (publicAuthRoutes.any (fun route => pathStartsWith req.path route) = false →
      gatewayAuthMiddleware verify req = .respond 401 "Access token is required") ∧
    (adminUserRoutes.any (fun route => pathStartsWith req.path route) = true →
      gatewayUserMiddleware verify req = .respond 401 "Authentication required") := by
  have h1 : authenticateToken verify req = .respond 401 "Access token is required" := by
    unfold authenticateToken
    rw [hex]
  refine ⟨h1, ?_, ?_, ?_⟩
  · intro k
    rw [h1]
    rfl
  · intro hpub
    rw [gatewayAuthMiddleware_nonpublic verify req hpub]
    exact h1
  · intro hadm
    unfold gatewayUserMiddleware
    rw [hadm]
    simp only [if_true]
    rw [hu]

/-- C4 witness: the amended statement at `GET /api/users/staff` with no
`Authorization` header. -/
theorem c4_missing_token_denied_witness :
    authenticateToken demoVerify ⟨"GET", "/api/users/staff", none, none⟩ =
      .respond 401 "Access token is required" :=
  (c4_missing_token_denied demoVerify ⟨"GET", "/api/users/staff", none, none⟩
    rfl rfl).1

/-- C5 counterexample: the claim says a failed GET is retried up to the
endpoint's `maxRetries` (3 for the order service).  Against an upstream that
fails on the first attempt and succeeds on the second, the code's forwarder
makes exactly one attempt and answers the 503 body, whereas the behaviour the
claim describes (`specForward`) succeeds on the second attempt. -/
theorem c5_counterexample :
    (proxyForward "order-service"
      (fun n => if n = 0 then none else some (200, "ok"))).2 = 1 ∧
    (proxyForward "order-service"
      (fun n => if n = 0 then none else some (200, "ok"))).1 =
      .unavailable 503
        { error := "Service temporarily unavailable", service := "order-service",
          message := "The requested service is currently unavailable" } ∧
    specForward "GET" 3 (fun n => if n = 0 then none else some (200, "ok")) =
      (some (200, "ok"), 2) ∧
    (services.find? (fun p => p.1 == "order-service")).map (fun p => p.2.retries) =
      some 3 := by
  decide

/-- C5 amended: the forwarder makes exactly one upstream attempt per request
whatever the upstream does and whatever the method (it takes no method into
account at all): no request, idempotent or not, is ever retried, and the
registry's retry budget is never consulted. -/
theorem c5_single_attempt_no_retry (name : String) (upstream : Upstream) :
    (proxyForward name upstream).2 = 1 := by
  unfold proxyForward
  cases upstream 0 <;> rfl

/-- C6: every request whose extracted bearer token fails verification is
denied 403 "Invalid or expired token" by `authenticateToken` — and by
`gatewayAuthMiddleware` on non-public paths — before any continuation
(upstream) runs; the message is one fixed string for every failing token, so
the response does not distinguish a bad signature from an expired token. -/
theorem c6_invalid_token_denied (verify : Verifier) (req : Request)
    (token : String)
    (hex : extractToken req.authorization = some token) (hv : verify token = none) :
    authenticateToken verify req = .respond 403 "Invalid or expired token" ∧
    (∀ k, andThen (authenticateToken verify req) k =
      .respond 403 "Invalid or expired token") ∧
    (publicAuthRoutes.any (fun route => pathStartsWith req.path route) = false →
      gatewayAuthMiddleware verify req = .respond 403 "Invalid or expired token") := by
  have h1 : authenticateToken verify req = .respond 403 "Invalid or expired token" := by
    rw [authenticateToken_of_token verify req token hex, hv]
  refine ⟨h1, ?_, ?_⟩
  · intro k
    rw [h1]
    rfl
  · intro hpub
    rw [gatewayAuthMiddleware_nonpublic verify req hpub]
    exact h1

/-- C6 witness: a failing token on the non-public path `/api/auth/profile`. -/
theorem c6_invalid_token_denied_witness :
    authenticateToken demoVerify
      ⟨"GET", "/api/auth/profile", some "Bearer bad-token", none⟩ =
      .respond 403 "Invalid or expired token" :=
  (c6_invalid_token_denied demoVerify
    ⟨"GET", "/api/auth/profile", some "Bearer bad-token", none⟩
    "bad-token" rfl rfl).1

/-- C7: on the staff route guard chain (`authenticateToken` then
`requireStaff`, as mounted on `/api/auth/staff/dashboard`), a verified token
whose principal class is staff is allowed whatever its role, and a verified
customer-class token is denied 403 "Staff access required". -/
theorem c7_staff_route_policy (verify : Verifier) (req : Request)
    (token : String) (payload : JWTPayload)
    (hex : extractToken req.authorization = some token)
    (hv : verify token = some payload) :
    (payload.userType = "staff" →
      staffRouteGuard verify req = .next { req with user := some payload }) ∧
    (payload.userType = "customer" →
      staffRouteGuard verify req = .respond 403 "Staff access required") := by
  have h1 : staffRouteGuard verify req =
      requireStaff { req with user := some payload } := by
    unfold staffRouteGuard
    rw [authenticateToken_of_token verify req token hex, hv]
    rfl
  constructor
  · intro hstaff
    rw [h1]
    unfold requireStaff
    simp [hstaff]
  · intro hcust
    rw [h1]
    unfold requireStaff
    simp [hcust]

/-- C7 witness: a staff token with a non-admin role is allowed, a customer
token is denied 403 "Staff access required". -/
theorem c7_staff_route_policy_witness :
    staffRouteGuard demoVerify
      ⟨"GET", "/api/auth/staff/dashboard", some "Bearer staff-cashier-token", none⟩ =
      .next { method := "GET", path := "/api/auth/staff/dashboard",
              authorization := some "Bearer staff-cashier-token",
              user := some { id := "s2", email := "b@example.com",
                             role := "cashier", userType := "staff" } } ∧
    staffRouteGuard demoVerify
      ⟨"GET", "/api/auth/staff/dashboard", some "Bearer customer-token", none⟩ =
      .respond 403 "Staff access required" :=
  ⟨(c7_staff_route_policy demoVerify
      ⟨"GET", "/api/auth/staff/dashboard", some "Bearer staff-cashier-token", none⟩
      "staff-cashier-token"
      { id := "s2", email := "b@example.com", role := "cashier", userType := "staff" }
      rfl rfl).1 rfl,
   (c7_staff_route_policy demoVerify
      ⟨"GET", "/api/auth/staff/dashboard", some "Bearer customer-token", none⟩
      "customer-token"
      { id := "u1", email := "c@example.com", role := "user", userType := "customer" }
      rfl rfl).2 rfl⟩

/-- C8: every `GET /health` request, with any `Authorization` header and any
attached principal, is answered 200 by the primary gateway with a body whose
fields are status "OK", the timestamp, service "API Gateway" and version
"1.0.0"; the dispatch never reads the header (no access control is mounted
in that pipeline), which the quantification over the header makes formal. -/
theorem c8_health_endpoint (now : String) (authz : Option String)
    (u : Option JWTPayload) :
    gatewayDispatch now ⟨"GET", "/health", authz, u⟩ =
      .health 200
        [("status", .str "OK"), ("timestamp", .str now),
         ("service", .str "API Gateway"), ("version", .str "1.0.0")] := by
  rfl

/-- C9 counterexample: the claim says the substring after the first space is
passed to verification.  For the header "Basic customer-token junk" the code
passes "customer-token" (the second split segment), not the after-first-space
substring "customer-token junk"; since "customer-token" verifies and the full
substring does not, the request is accepted where the claim predicts 403. -/
theorem c9_counterexample :
    extractToken (some "Basic customer-token junk") = some "customer-token" ∧
    afterFirstSpace "Basic customer-token junk" = "customer-token junk" ∧
    demoVerify "customer-token junk" = none ∧
    outcomeOf (authenticateToken demoVerify
      ⟨"GET", "/api/users/1", some "Basic customer-token junk", none⟩) =
      .allowed (some { id := "u1", email := "c@example.com", role := "user",
                       userType := "customer" }) := by
  decide

/-- C9 amended: token extraction ignores the scheme — for any two space-free
scheme words the middleware's observable outcome on `scheme ++ " " ++ rest`
is identical, so "Basic jwt" is accepted exactly as "Bearer jwt" when its
second segment verifies — and a header with no space at all is treated as a
missing token and denied 401 "Access token is required". -/
theorem c9_scheme_ignored (verify : Verifier) (m p : String)
    (u : Option JWTPayload) (s₁ s₂ rest hdr : String)
    (h₁ : ' ' ∉ s₁.toList) (h₂ : ' ' ∉ s₂.toList) (hh : ' ' ∉ hdr.toList) :
    outcomeOf (authenticateToken verify ⟨m, p, some (s₁ ++ " " ++ rest), u⟩) =
      outcomeOf (authenticateToken verify ⟨m, p, some (s₂ ++ " " ++ rest), u⟩) ∧
    authenticateToken verify ⟨m, p, some hdr, u⟩ =
      .respond 401 "Access token is required" := by
  constructor
  · unfold authenticateToken
    rw [extractToken_scheme s₁ rest h₁, extractToken_scheme s₂ rest h₂]
    cases hE : (jsSplitSpace rest).get? 0 with
    | none => rfl
    | some t =>
      by_cases ht : t = ""
      · simp [ht]
      · simp only [ht, if_false]
        cases verify t <;> rfl
  · unfold authenticateToken
    rw [extractToken_no_space hdr hh]

/-- C9 witness: the amended statement at the schemes "Basic" and "Bearer"
with the token "customer-token", and at the schemeless header
"customer-token". -/
theorem c9_scheme_ignored_witness :
    outcomeOf (authenticateToken demoVerify
      ⟨"GET", "/api/users/1", some ("Basic" ++ " " ++ "customer-token"), none⟩) =
      outcomeOf (authenticateToken demoVerify
        ⟨"GET", "/api/users/1", some ("Bearer" ++ " " ++ "customer-token"), none⟩) ∧
    authenticateToken demoVerify ⟨"GET", "/api/users/1", some "customer-token", none⟩ =
      .respond 401 "Access token is required" :=
  c9_scheme_ignored demoVerify "GET" "/api/users/1" none "Basic" "Bearer"
    "customer-token" "customer-token" (by decide) (by decide) (by decide)

/-- C10: `optionalAuth` allows every request — whatever the verifier and the
request, it calls `next`, and the `/users` pipeline it guards forwards to the
user service; when the presented token fails verification the request passes
through with `req.user` left exactly as it was, instead of an error. -/
theorem c10_optionalAuth_always_next (verify : VerifyAccess)
    (req : AuthedRequest) :
    (∃ r, optionalAuth verify req = .next r) ∧
    (∃ u, usersRoute verify req = .forwarded "user" u) ∧
    (∀ token, extractToken req.authorization = some token → verify token = none →
      optionalAuth verify req = .next req ∧
      usersRoute verify req = .forwarded "user" req.user) := by
  have hnext : ∃ r, optionalAuth verify req = .next r := by
    cases hex : extractToken req.authorization with
    | none => exact ⟨req, optionalAuth_of_none verify req hex⟩
    | some token =>
      rw [optionalAuth_of_token verify req token hex]
      cases verify token with
      | none => exact ⟨req, rfl⟩
      | some d => exact ⟨_, rfl⟩
  refine ⟨hnext, ?_, ?_⟩
  · obtain ⟨r, hr⟩ := hnext
    refine ⟨r.user, ?_⟩
    unfold usersRoute
    rw [hr]
  · intro token hex hv
    have h1 : optionalAuth verify req = .next req := by
      rw [optionalAuth_of_token verify req token hex, hv]
    refine ⟨h1, ?_⟩
    unfold usersRoute
    rw [h1]

/-- C10 witness: an invalid bearer token on the `/users` route is forwarded
with no principal attached. -/
theorem c10_optionalAuth_always_next_witness :
    optionalAuth demoVerifyAccess ⟨"GET", "/users", some "Bearer bad", none⟩ =
      .next ⟨"GET", "/users", some "Bearer bad", none⟩ ∧
    usersRoute demoVerifyAccess ⟨"GET", "/users", some "Bearer bad", none⟩ =
      .forwarded "user" none :=
  (c10_optionalAuth_always_next demoVerifyAccess
    ⟨"GET", "/users", some "Bearer bad", none⟩).2.2 "bad" rfl rfl

end Micro
